import Mathlib

/-!
Shallow embedding of `src/helpers/gen_bc6h_parser.py`, a generator that
parses the BC6H mode-layout table `MODEREF` and emits, per mode, an ordered
sequence of bit-extraction operations (in the script, printed as C code of
the form `colors[e].c.ch |= GETBITS(bdata, offset, numbits) << firstbit;`).

The embedding keeps the script's structure: a field matcher mirroring the
regex `(\w)(\d?)\[(\d+)(?::(\d+))?\]` with `re.match` (anchored at the start
only), per-token compilation threading a bit cursor, and line-by-line table
assembly.  Emission is modelled as returning the list of operations printed
before any exception, together with the exception if one occurred, which
matches the script's print-as-you-go behaviour.
-/

/-- The two exception kinds the script can raise while compiling a line:
`assert m` raises `AssertionError` when an element does not match the field
regex, and `int(m.group(2))` raises `ValueError` when the endpoint digit is
absent (or, for the mode number, when it is not numeric). -/
inductive GenError where
  | assertionError
  | valueError
deriving DecidableEq

/-- One emitted extraction operation.  The fields correspond to the
parameters of the printed `FORMAT` line: `channel`, `endpoint`, `offset`,
`numbits`, `firstbit`. -/
structure ExtractionOp where
  dest_channel : Char
  dest_endpoint : Nat
  source_bit_offset : Nat
  num_bits : Nat
  dest_bit_position : Nat
deriving DecidableEq

/-- Python's `\w` on the ASCII inputs of this table: letters, digits, `_`. -/
def isWordChar (c : Char) : Bool := c.isAlphanum || c = '_'

/-- Numeric value of a digit string (`int` on an all-digit string). -/
def digitsVal (ds : List Char) : Nat := ds.foldl (fun n c => 10 * n + (c.toNat - 48)) 0

/-- Match `\[(\d+)(?::(\d+))?\]` at the front of `cs` (trailing characters
are allowed, as with `re.match`).  Returns the first number and the optional
second number. -/
def matchBracket (cs : List Char) : Option (Nat × Option Nat) :=
  match cs with
  | '[' :: rest =>
    let ds := rest.takeWhile Char.isDigit
    let rest1 := rest.dropWhile Char.isDigit
    if ds = [] then none
    else
      match rest1 with
      | ':' :: rest2 =>
        let ds2 := rest2.takeWhile Char.isDigit
        let rest3 := rest2.dropWhile Char.isDigit
        if ds2 = [] then none
        else
          match rest3 with
          | ']' :: _ => some (digitsVal ds, some (digitsVal ds2))
          | _ => none
      | ']' :: _ => some (digitsVal ds, none)
      | _ => none
  | _ => none

/-- Match the field regex `(\w)(\d?)\[(\d+)(?::(\d+))?\]` at the front of
`cs` (the script's `re.match(...)`): channel character (group 1), optional
endpoint digit (group 2), first bracket number (group 3) and optional second
bracket number (group 4).  The optional digit backtracks: if taking it makes
the bracket fail, the match retries with group 2 empty. -/
def fieldMatch (cs : List Char) : Option (Char × Option Char × Nat × Option Nat) :=
  match cs with
  | c1 :: rest =>
    if isWordChar c1 then
      match rest with
      | c2 :: rest2 =>
        if c2.isDigit then
          match matchBracket rest2 with
          | some (h, t) => some (c1, some c2, h, t)
          | none =>
            match matchBracket rest with
            | some (h, t) => some (c1, none, h, t)
            | none => none
        else
          match matchBracket rest with
          | some (h, t) => some (c1, none, h, t)
          | none => none
      | [] => none
    else none
  | [] => none

/-- Compile one matched field.  Mirrors lines 41-68 of the script: normalize
the range (`head >= tail` means forward, swapping so `head` is the low end;
otherwise the field is reversed), compute `numbits`; a mode-selector field
(`channel = m`) only advances the cursor; otherwise the endpoint digit is
converted (`ValueError` if absent or not a digit) and either a single
forward operation or `numbits` single-bit reversed operations are emitted,
after which the cursor advances by `numbits`. -/
def compileField (offset : Nat) (ch : Char) (ep : Option Char) (head0 tail0 : Nat) :
    Except GenError (List ExtractionOp × Nat) :=
  let nrm := if head0 ≥ tail0 then (false, tail0, head0) else (true, head0, tail0)
  let reverse := nrm.1
  let head := nrm.2.1
  let tail := nrm.2.2
  let numbits := tail - head + 1
  if ch = 'm' then .ok ([], offset + numbits)
  else
    match ep with
    | none => .error .valueError
    | some d =>
      if d.isDigit then
        if reverse then
          .ok ((List.range (tail - head + 1)).map fun i =>
                { dest_channel := ch, dest_endpoint := d.toNat - 48,
                  source_bit_offset := offset + i, num_bits := 1,
                  dest_bit_position := tail - i },
               offset + numbits)
        else
          .ok ([{ dest_channel := ch, dest_endpoint := d.toNat - 48,
                  source_bit_offset := offset, num_bits := numbits,
                  dest_bit_position := head }],
               offset + numbits)
      else .error .valueError

/-- Compile one comma-separated element of a layout line: match the field
regex (an element that does not match fails the script's `assert m`, an
`AssertionError`), default the missing second bracket number to the first
(`tail = int(m.group(4)) if m.group(4) else head`), then compile. -/
def compileAssign (offset : Nat) (assign : String) :
    Except GenError (List ExtractionOp × Nat) :=
  match fieldMatch assign.data with
  | none => .error .assertionError
  | some (ch, ep, head, tailOpt) => compileField offset ch ep head (tailOpt.getD head)

/-- Compile a mode's element list in order, threading the cursor, collecting
the operations printed before any exception.  Returns the emitted operations,
the final cursor, and the exception if one occurred (operations already
printed when the script dies are kept). -/
def compileModeT : List String → Nat → List ExtractionOp × Nat × Option GenError
  | [], offset => ([], offset, none)
  | a :: rest, offset =>
    match compileAssign offset a with
    | .error e => ([], offset, some e)
    | .ok (ops, offset2) =>
      let r := compileModeT rest offset2
      (ops ++ r.1, r.2.1, r.2.2)

/-- Split on runs of whitespace, dropping empty chunks (`str.split()`). -/
def wsSplitGo : List Char → List Char → List (List Char)
  | [], acc => if acc = [] then [] else [acc.reverse]
  | c :: rest, acc =>
    if c.isWhitespace then
      if acc = [] then wsSplitGo rest [] else acc.reverse :: wsSplitGo rest []
    else wsSplitGo rest (c :: acc)

def wsSplit (cs : List Char) : List (List Char) := wsSplitGo cs []

/-- Split on commas, keeping empty chunks (`str.split(',')`). -/
def commaSplitGo : List Char → List Char → List String
  | [], acc => [String.mk acc.reverse]
  | c :: rest, acc =>
    if c = ',' then String.mk acc.reverse :: commaSplitGo rest []
    else commaSplitGo rest (c :: acc)

def commaSplit (cs : List Char) : List String := commaSplitGo cs []

/-- Split on newlines (`str.splitlines()` on the table text, which uses only
`\n`; empty chunks are kept here and skipped by the line loop, as the script
skips blank lines). -/
def nlSplitGo : List Char → List Char → List (List Char)
  | [], acc => [acc.reverse]
  | c :: rest, acc =>
    if c = '\n' then acc.reverse :: nlSplitGo rest []
    else nlSplitGo rest (c :: acc)

def splitlines (s : String) : List (List Char) := nlSplitGo s.data []

/-- `str.strip()`. -/
def stripChars (cs : List Char) : List Char :=
  ((cs.dropWhile Char.isWhitespace).reverse.dropWhile Char.isWhitespace).reverse

/-- `int(s)` for the mode number: the whole string must be digits. -/
def strToNat (cs : List Char) : Except GenError Nat :=
  if cs ≠ [] ∧ cs.all Char.isDigit then .ok (digitsVal cs) else .error .valueError

/-- `mode, assigns = line.split(); mode = int(mode); assigns = assigns.split(',')`:
unpacking fails (`ValueError`) unless the line has exactly two
whitespace-separated chunks. -/
def parseLine (cs : List Char) : Except GenError (Nat × List String) :=
  match wsSplit cs with
  | [modeCs, assignsCs] =>
    match strToNat modeCs with
    | .ok mode => .ok (mode, commaSplit assignsCs)
    | .error e => .error e
  | _ => .error .valueError

/-- Process one line of the table: strip it, skip it when blank, otherwise
parse the mode number and element list and compile the mode starting from
cursor 0 (`offset = 0` is re-executed for every line).  Returns the table
entries this line contributes (mode, operations, final cursor) and the
exception if one occurred. -/
def lineEntries (cs : List Char) : List (Nat × List ExtractionOp × Nat) × Option GenError :=
  let s := stripChars cs
  if s = [] then ([], none)
  else
    match parseLine s with
    | .error e => ([], some e)
    | .ok (mode, assigns) =>
      let r := compileModeT assigns 0
      ([(mode, r.1, r.2.1)], r.2.2)

/-- Assemble the table line by line, stopping at the first exception (the
script dies there); entries produced before the exception are kept. -/
def genTableLines : List (List Char) → List (Nat × List ExtractionOp × Nat) × Option GenError
  | [] => ([], none)
  | l :: rest =>
    match lineEntries l with
    | (es, some e) => (es, some e)
    | (es, none) =>
      let r := genTableLines rest
      (es ++ r.1, r.2)

/-- Run the generator over a table text. -/
def genTable (input : String) : List (Nat × List ExtractionOp × Nat) × Option GenError :=
  genTableLines (splitlines input)

/-- The mode-layout table from the script (module-level constant `MODEREF`). -/
def MODEREF : String :=
  "\n0  m[1:0],g2[4],b2[4],b3[4],r0[9:0],g0[9:0],b0[9:0],r1[4:0],g3[4],g2[3:0],g1[4:0],b3[0],g3[3:0],b1[4:0],b3[1],b2[3:0],r2[4:0],b3[2],r3[4:0],b3[3]\n" ++
  "1  m[1:0],g2[5],g3[4],g3[5],r0[6:0],b3[0],b3[1],b2[4],g0[6:0],b2[5],b3[2],g2[4],b0[6:0],b3[3],b3[5],b3[4],r1[5:0],g2[3:0],g1[5:0],g3[3:0],b1[5:0],b2[3:0],r2[5:0],r3[5:0]\n" ++
  "2  m[4:0],r0[9:0],g0[9:0],b0[9:0],r1[4:0],r0[10],g2[3:0],g1[3:0],g0[10],b3[0],g3[3:0],b1[3:0],b0[10],b3[1],b2[3:0],r2[4:0],b3[2],r3[4:0],b3[3]\n" ++
  "6  m[4:0],r0[9:0],g0[9:0],b0[9:0],r1[3:0],r0[10],g3[4],g2[3:0],g1[4:0],g0[10],g3[3:0],b1[3:0],b0[10],b3[1],b2[3:0],r2[3:0],b3[0],b3[2],r3[3:0],g2[4],b3[3]\n" ++
  "10 m[4:0],r0[9:0],g0[9:0],b0[9:0],r1[3:0],r0[10],b2[4],g2[3:0],g1[3:0],g0[10],b3[0],g3[3:0],b1[4:0],b0[10],b2[3:0],r2[3:0],b3[1],b3[2],r3[3:0],b3[4],b3[3]\n" ++
  "14 m[4:0],r0[8:0],b2[4],g0[8:0],g2[4],b0[8:0],b3[4],r1[4:0],g3[4],g2[3:0],g1[4:0],b3[0],g3[3:0],b1[4:0],b3[1],b2[3:0],r2[4:0],b3[2],r3[4:0],b3[3]\n" ++
  "18 m[4:0],r0[7:0],g3[4],b2[4],g0[7:0],b3[2],g2[4],b0[7:0],b3[3],b3[4],r1[5:0],g2[3:0],g1[4:0],b3[0],g3[3:0],b1[4:0],b3[1],b2[3:0],r2[5:0],r3[5:0]\n" ++
  "22 m[4:0],r0[7:0],b3[0],b2[4],g0[7:0],g2[5],g2[4],b0[7:0],g3[5],b3[4],r1[4:0],g3[4],g2[3:0],g1[5:0],g3[3:0],b1[4:0],b3[1],b2[3:0],r2[4:0],b3[2],r3[4:0],b3[3]\n" ++
  "26 m[4:0],r0[7:0],b3[1],b2[4],g0[7:0],b2[5],g2[4],b0[7:0],b3[5],b3[4],r1[4:0],g3[4],g2[3:0],g1[4:0],b3[0],g3[3:0],b1[5:0],b2[3:0],r2[4:0],b3[2],r3[4:0],b3[3]\n" ++
  "30 m[4:0],r0[5:0],g3[4],b3[0],b3[1],b2[4],g0[5:0],g2[5],b2[5],b3[2],g2[4],b0[5:0],g3[5],b3[3],b3[5],b3[4],r1[5:0],g2[3:0],g1[5:0],g3[3:0],b1[5:0],b2[3:0],r2[5:0],r3[5:0]\n" ++
  "3  m[4:0],r0[9:0],g0[9:0],b0[9:0],r1[9:0],g1[9:0],b1[9:0]\n" ++
  "7  m[4:0],r0[9:0],g0[9:0],b0[9:0],r1[8:0],r0[10],g1[8:0],g0[10],b1[8:0],b0[10]\n" ++
  "11 m[4:0],r0[9:0],g0[9:0],b0[9:0],r1[7:0],r0[10:11],g1[7:0],g0[10:11],b1[7:0],b0[10:11]\n" ++
  "15 m[4:0],r0[9:0],g0[9:0],b0[9:0],r1[3:0],r0[10:15],g1[3:0],g0[10:15],b1[3:0],b0[10:15]\n"

deriving instance DecidableEq for Except

/-! ### Checkers for the spec's testable properties -/

/-- Entry of the assembled table for a given mode number. -/
def modeEntry (m : Nat) : Option (Nat × List ExtractionOp × Nat) :=
  (genTable MODEREF).1.find? fun e => e.1 = m

/-- No element repeats. -/
def nodupB : List Nat → Bool
  | [] => true
  | x :: xs => !(xs.contains x) && nodupB xs

/-- Destination bits written by one operation:
`[dest_bit_position, dest_bit_position + num_bits)`. -/
def opBits (o : ExtractionOp) : List Nat :=
  (List.range o.num_bits).map fun i => o.dest_bit_position + i

/-- All destination bits written to one (endpoint, channel) pair. -/
def channelBits (ops : List ExtractionOp) (ep : Nat) (ch : Char) : List Nat :=
  ((ops.filter fun o => o.dest_endpoint = ep && o.dest_channel = ch).map opBits).flatten

/-- The (endpoint, channel) pairs targeted by a mode's program. -/
def epChPairs (ops : List ExtractionOp) : List (Nat × Char) :=
  (ops.map fun o => (o.dest_endpoint, o.dest_channel)).dedup

/-- `bits` covers `[0, w)` exactly: no duplicates, every bit below `w`
present, nothing at or above `w`. -/
def coversExactly (bits : List Nat) (w : Nat) : Bool :=
  nodupB bits && ((List.range w).all fun b => bits.contains b) && (bits.all fun b => b < w)

/-- Final channel width: one more than the highest destination bit written. -/
def channelWidth (bits : List Nat) : Nat := bits.foldr max 0 + 1

/-- Coverage check for one mode's program: every targeted (endpoint, channel)
pair's destination bits tile `[0, W)` with no overlap and no gap. -/
def modeCoverageOK (ops : List ExtractionOp) : Bool :=
  (epChPairs ops).all fun p =>
    coversExactly (channelBits ops p.1 p.2) (channelWidth (channelBits ops p.1 p.2))

/-- Coverage check over the whole assembled table. -/
def tableCoverageOK : Bool :=
  match genTable MODEREF with
  | (entries, none) => entries.all fun e => modeCoverageOK e.2.1
  | (_, some _) => false

/-- Non-decreasing list of numbers. -/
def nonDecr : List Nat → Bool
  | [] => true
  | [_] => true
  | a :: b :: rest => a ≤ b && nonDecr (b :: rest)

/-- Declared width of one field token (`high - low + 1` after normalizing). -/
def assignWidth (assign : String) : Option Nat :=
  match fieldMatch assign.data with
  | none => none
  | some (_, _, head, tailOpt) =>
    let tail := tailOpt.getD head
    some (max head tail - min head tail + 1)

/-- Sum of the declared widths of a line's field tokens. -/
def lineWidthSum (assigns : List String) : Option Nat :=
  assigns.foldr
    (fun a acc =>
      match assignWidth a, acc with
      | some w, some s => some (w + s)
      | _, _ => none)
    (some 0)

/-- Per-line check for cursor monotonicity and the final-cursor value:
emitted source offsets are non-decreasing, the final cursor equals the sum
of the line's declared field widths, and equals 65 for modes 3, 7, 11, 15
and 77 for the other modes of the table. -/
def cursorLineOK (cs : List Char) : Bool :=
  let s := stripChars cs
  if s = [] then true
  else
    match parseLine s with
    | .error _ => false
    | .ok (mode, assigns) =>
      match compileModeT assigns 0 with
      | (ops, cur, none) =>
        nonDecr (ops.map fun o => o.source_bit_offset) &&
        lineWidthSum assigns == some cur &&
        cur == (if mode = 3 ∨ mode = 7 ∨ mode = 11 ∨ mode = 15 then 65 else 77)
      | (_, _, some _) => false

/-- Cursor check over every line of the table. -/
def cursorTableOK : Bool := (splitlines MODEREF).all cursorLineOK

/-- A token whose first-written bracket number is smaller than its second
(the script's `reverse = True` case). -/
def firstWrittenReversed (assign : String) : Bool :=
  match fieldMatch assign.data with
  | some (_, _, head, some tail) => head < tail
  | _ => false

/-- All reversed tokens of the table, with the mode they occur in. -/
def reversedTokensOfTable : List (Nat × String) :=
  ((splitlines MODEREF).map fun cs =>
    match parseLine (stripChars cs) with
    | .ok (mode, assigns) => (assigns.filter firstWrittenReversed).map fun a => (mode, a)
    | .error _ => []).flatten

/-- The element list of the table line declaring mode `m`. -/
def modeAssigns (m : Nat) : Option (List String) :=
  ((splitlines MODEREF).filterMap fun cs =>
    match parseLine (stripChars cs) with
    | .ok (mode, assigns) => if mode = m then some assigns else none
    | .error _ => none).head?

set_option maxRecDepth 10000

/-- C1: compiling the mode-3 layout line consumes bits 0-4 for the mode
selector without emitting an operation, then emits exactly six forward
operations, one per remaining field in order, at source offsets 5, 15, 25,
35, 45, 55, each 10 bits wide with destination bit position 0, ending with
cursor 65. -/
theorem c1_mode3_program :
    compileAssign 0 "m[4:0]" = .ok ([], 5) ∧
    modeEntry 3 = some (3,
      [⟨'r', 0, 5, 10, 0⟩, ⟨'g', 0, 15, 10, 0⟩, ⟨'b', 0, 25, 10, 0⟩,
       ⟨'r', 1, 35, 10, 0⟩, ⟨'g', 1, 45, 10, 0⟩, ⟨'b', 1, 55, 10, 0⟩], 65) := by
  decide

/-- C3: in every compiled mode of the table, for every (endpoint, channel)
pair, the destination intervals of that pair's operations tile `[0, W)`
exactly, where `W` is one more than the highest destination bit written. -/
theorem c3_coverage : tableCoverageOK = true := by decide

/-- C4: in every mode of the table, emitted source offsets are
non-decreasing in emission order, and the final cursor equals the sum of the
line's declared field widths: 65 for modes 3, 7, 11, 15 and 77 for the
rest. -/
theorem c4_cursor : cursorTableOK = true := by decide

/-- C8 counterexample: the claim that no reversed token occurs in the real
table is false: mode 15's line contains `r0[10:15]`, whose first-written
bracket number 10 is smaller than 15. -/
theorem c8_counterexample :
    ((modeAssigns 15).getD []).contains "r0[10:15]" = true ∧
    firstWrittenReversed "r0[10:15]" = true := by decide

/-- C8 amended: the reversed tokens of the table are exactly the second
halves of the split endpoint-0 fields of modes 11 and 15. -/
theorem c8_reversed_tokens :
    reversedTokensOfTable =
      [(11, "r0[10:11]"), (11, "g0[10:11]"), (11, "b0[10:11]"),
       (15, "r0[10:15]"), (15, "g0[10:15]"), (15, "b0[10:15]")] := by decide

/-- C6 counterexample: a line with field token `z[3:0]` does not fail as a
parse failure: the field regex matches it (any word character is accepted as
channel letter), and the failure that does occur is the `ValueError` from
converting the absent endpoint digit, a different exception than the
`AssertionError` of a regex mismatch; moreover operations for fields before
the bad token are still emitted. -/
theorem c6_counterexample :
    fieldMatch ("z[3:0]".data) = some ('z', none, 3, some 0) ∧
    genTable "5 z[3:0]" = ([(5, [], 0)], some GenError.valueError) ∧
    GenError.valueError ≠ GenError.assertionError ∧
    genTable "5 r0[1:0],z[3:0]" =
      ([(5, [⟨'r', 0, 0, 2, 0⟩], 2)], some GenError.valueError) := by
  exact ⟨by decide, by decide, by decide, by decide⟩

/-- C6 amended: compiling a line containing `z[3:0]` fails, but with the
`ValueError` of the endpoint-digit conversion rather than a grammar parse
failure, and operations emitted for earlier fields of the line are kept;
an element that really does not match the field grammar aborts the rest of
the line with the `AssertionError` of the failed regex match, with no
skipping or recovery. -/
theorem c6_failure_kinds :
    compileAssign 0 "z[3:0]" = .error .valueError ∧
    compileModeT ["r0[1:0]", "z[3:0]"] 0 = ([⟨'r', 0, 0, 2, 0⟩], 2, some .valueError) ∧
    (∀ (offset : Nat) (s : String) (rest : List String),
      fieldMatch s.data = none →
      compileModeT (s :: rest) offset = ([], offset, some .assertionError)) := by
  refine ⟨by decide, by decide, ?_⟩
  intro offset s rest h
  simp [compileModeT, compileAssign, h]

/-- C6 amended witness at a concrete non-matching element. -/
theorem c6_failure_kinds_witness :
    compileModeT ["??", "r0[1:0]"] 3 = ([], 3, some .assertionError) :=
  c6_failure_kinds.2.2 3 "??" ["r0[1:0]"] (by decide)

/-- C7 counterexample: an input declaring mode 3 on two lines is not
rejected: assembly succeeds with no error and emits one entry per line. -/
theorem c7_counterexample :
    genTable "3 m[1:0]\n3 m[1:0]" = ([(3, [], 2), (3, [], 2)], none) := by decide

/-- C7 amended: the generator performs no duplicate-mode detection: a
duplicated mode identifier yields one emitted program per declaring line,
both present in order, with no error raised. -/
theorem c7_no_duplicate_check :
    ((genTable "3 m[1:0]\n3 m[1:0]").1.map fun e => e.1) = [3, 3] ∧
    (genTable "3 m[1:0]\n3 m[1:0]").2 = none := by decide

/-- C10: the field regex accepts any word character as channel letter and
anchors only at the start of the element: `z0[3:0]` compiles to a normal
operation, a mode selector with an endpoint digit such as `m0[1:0]` is
accepted and still consumes bits without emitting operations, and trailing
text after the bracket is ignored. -/
theorem c10_lenient_grammar :
    compileAssign 0 "z0[3:0]" = .ok ([⟨'z', 0, 0, 4, 0⟩], 4) ∧
    compileAssign 7 "m0[1:0]" = .ok ([], 9) ∧
    compileAssign 0 "r0[1:0]junk" = .ok ([⟨'r', 0, 0, 2, 0⟩], 2) := by decide

/-- C2: a field whose first-written bracket number is smaller than its
second expands into `numbits` single-bit operations in source order, the
i-th reading at `cursor + i` and landing at destination bit `tail - i`,
with the cursor advancing by `numbits` once after the expansion; in
particular `x0[2:5]` expands into 4 single-bit operations with destination
bit positions 5, 4, 3, 2 read at cursor, cursor+1, cursor+2, cursor+3. -/
theorem c2_reversed_expansion :
    (∀ (offset head tail : Nat) (ch d : Char),
      head < tail → ch ≠ 'm' → d.isDigit = true →
      compileField offset ch (some d) head tail =
        .ok ((List.range (tail - head + 1)).map fun i =>
          ⟨ch, d.toNat - 48, offset + i, 1, tail - i⟩, offset + (tail - head + 1))) ∧
    (∀ cursor : Nat,
      compileAssign cursor "x0[2:5]" =
        .ok ([⟨'x', 0, cursor, 1, 5⟩, ⟨'x', 0, cursor + 1, 1, 4⟩,
              ⟨'x', 0, cursor + 2, 1, 3⟩, ⟨'x', 0, cursor + 3, 1, 2⟩], cursor + 4)) := by
  constructor
  · intro offset head tail ch d hlt hm hd
    have hge : ¬ head ≥ tail := Nat.not_le.mpr hlt
    simp [compileField, hge, hm, hd]
  · intro cursor
    show compileField cursor 'x' (some '0') 2 5 = _
    simp [compileField, List.range_succ]

/-- C2 witness: the reversed-expansion theorem at cursor 7 for `x0[2:5]`. -/
theorem c2_reversed_expansion_witness :
    compileField 7 'x' (some '0') 2 5 =
      .ok ([⟨'x', 0, 7, 1, 5⟩, ⟨'x', 0, 8, 1, 4⟩, ⟨'x', 0, 9, 1, 3⟩, ⟨'x', 0, 10, 1, 2⟩], 11) := by
  have h := c2_reversed_expansion.1 7 2 5 'x' '0' (by decide) (by decide) (by decide)
  simpa [List.range_succ] using h

/-- C5: a field whose first-written bracket number is at least its second
(the single-number form has both equal) is forward: exactly one operation is
emitted, reading `high - low + 1` bits at the cursor into the token's
endpoint and channel at destination bit `low` (the normalized low end), and
the cursor advances by that width; in particular the single-bit field
`g2[4]` emits one 1-bit operation at destination bit 4. -/
theorem c5_forward_field :
    (∀ (offset head tail : Nat) (ch d : Char),
      tail ≤ head → ch ≠ 'm' → d.isDigit = true →
      compileField offset ch (some d) head tail =
        .ok ([⟨ch, d.toNat - 48, offset, head - tail + 1, tail⟩],
             offset + (head - tail + 1))) ∧
    (∀ cursor : Nat,
      compileAssign cursor "g2[4]" = .ok ([⟨'g', 2, cursor, 1, 4⟩], cursor + 1)) := by
  constructor
  · intro offset head tail ch d hle hm hd
    have hge : head ≥ tail := hle
    simp [compileField, hge, hm, hd]
  · intro cursor
    show compileField cursor 'g' (some '2') 4 4 = _
    simp [compileField]

/-- C5 witness: the forward-field theorem at cursor 5 for an `r0[9:0]`
shaped field. -/
theorem c5_forward_field_witness :
    compileField 5 'r' (some '0') 9 0 = .ok ([⟨'r', 0, 5, 10, 0⟩], 15) :=
  c5_forward_field.1 5 9 0 'r' '0' (by decide) (by decide) (by decide)

/-- Assembly processes lines independently: the result on an appended line
list is the concatenation of the two results, unless the first part already
raised an exception, in which case processing stopped there. -/
theorem genTableLines_append (ls1 ls2 : List (List Char)) :
    genTableLines (ls1 ++ ls2) =
      if (genTableLines ls1).2 = none
      then ((genTableLines ls1).1 ++ (genTableLines ls2).1, (genTableLines ls2).2)
      else genTableLines ls1 := by
  induction ls1 with
  | nil => simp [genTableLines]
  | cons l rest ih =>
    simp only [List.cons_append, genTableLines]
    rcases h : lineEntries l with ⟨es, eOpt⟩
    cases eOpt with
    | some e => simp
    | none =>
      by_cases h2 : (genTableLines rest).2 = none
      · simp [ih, h2, List.append_assoc]
      · simp [ih, h2]

/-- A one-line table contributes exactly that line's entries. -/
theorem genTableLines_single (l : List Char) :
    (genTableLines [l]).1 = (lineEntries l).1 := by
  simp only [genTableLines]
  rcases h : lineEntries l with ⟨es, eOpt⟩
  cases eOpt <;> simp [genTableLines]

/-- C9: compilation of a layout line is a deterministic function of the
line's text alone: appending the same line to any two error-free inputs
contributes the same entries, namely the entries of compiling that line by
itself (each line's cursor starts at 0, with no state carried across
lines). -/
theorem c9_deterministic_per_line :
    ∀ (ls1 ls2 : List (List Char)) (l : List Char),
      (genTableLines ls1).2 = none → (genTableLines ls2).2 = none →
      (genTableLines (ls1 ++ [l])).1.drop (genTableLines ls1).1.length =
        (genTableLines (ls2 ++ [l])).1.drop (genTableLines ls2).1.length ∧
      (genTableLines (ls1 ++ [l])).1.drop (genTableLines ls1).1.length =
        (lineEntries l).1 := by
  intro ls1 ls2 l h1 h2
  rw [genTableLines_append ls1 [l], genTableLines_append ls2 [l], if_pos h1, if_pos h2]
  simp [List.drop_left, genTableLines_single]

/-- C9 witness: the duplicated line `3 m[1:0]`, preceded by nothing and by
a different line, contributes identical entries both times. -/
theorem c9_deterministic_per_line_witness :
    (genTableLines ([] ++ ["3 m[1:0]".data])).1.drop
        (genTableLines ([] : List (List Char))).1.length =
      (genTableLines (["0 m[1:0]".data] ++ ["3 m[1:0]".data])).1.drop
        (genTableLines ["0 m[1:0]".data]).1.length ∧
    (genTableLines ([] ++ ["3 m[1:0]".data])).1.drop
        (genTableLines ([] : List (List Char))).1.length =
      (lineEntries "3 m[1:0]".data).1 :=
  c9_deterministic_per_line [] ["0 m[1:0]".data] "3 m[1:0]".data (by decide) (by decide)
